import Mathlib

/-!
Verification development for the nz7dev fleet-management dashboard
(`nz7dev_rdp_simple.py` and `nz7dev_gui.py`).

The Python code is shallowly embedded: Python dictionaries become
association lists over `String` keys with insert-overwrite semantics,
`datetime` timestamps become natural-number seconds, and the outcomes of
external effects (subprocess runs, socket connects, process signals) are
made explicit parameters drawn from small inductive outcome types, so
that every control path of the source is a total Lean function of its
inputs and of the recorded outcome.
-/

namespace NZ7

/-- Association-list lookup modelling a Python dict read (`d.get(k)` /
`d[k]`); returns the first binding for the key. -/
def alistLookup {α : Type} (m : List (String × α)) (k : String) : Option α :=
  (m.find? (fun p => p.1 == k)).map (fun p => p.2)

/-- Remove every binding for a key, modelling Python `del d[k]`. -/
def alistErase {α : Type} (k : String) (m : List (String × α)) : List (String × α) :=
  m.filter (fun p => !(p.1 == k))

/-- Insert-overwrite, modelling Python `d[k] = v`. -/
def alistInsert {α : Type} (k : String) (v : α) (m : List (String × α)) : List (String × α) :=
  (k, v) :: alistErase k m

theorem alistLookup_insert_self {α : Type} (k : String) (v : α) (m : List (String × α)) :
    alistLookup (alistInsert k v m) k = some v := by
  unfold alistLookup alistInsert
  rw [List.find?_cons_of_pos _ (by simp)]
  rfl

theorem alistLookup_erase_self {α : Type} (k : String) (m : List (String × α)) :
    alistLookup (alistErase k m) k = none := by
  have h : List.find? (fun p => p.1 == k)
      (List.filter (fun p => !(p.1 == k)) m) = none := by
    rw [List.find?_eq_none]
    intro x hx
    rcases List.mem_filter.mp hx with ⟨_, hxk⟩
    simp at hxk ⊢
    exact hxk
  simp only [alistLookup, alistErase, h, Option.map_none']

theorem alistLookup_erase_other {α : Type} (k k' : String) (m : List (String × α))
    (h : k' ≠ k) : alistLookup (alistErase k m) k' = alistLookup m k' := by
  unfold alistLookup alistErase
  rw [List.find?_filter]
  have hp : (fun a : String × α => decide ((!(a.1 == k)) = true ∧ (a.1 == k') = true))
      = (fun p : String × α => p.1 == k') := by
    funext a
    by_cases ha : a.1 = k'
    · simp [ha, h]
    · simp [ha]
  rw [hp]

theorem alistLookup_insert_other {α : Type} (k k' : String) (v : α) (m : List (String × α))
    (h : k' ≠ k) : alistLookup (alistInsert k v m) k' = alistLookup m k' := by
  have h1 : alistLookup (alistInsert k v m) k' = alistLookup (alistErase k m) k' := by
    unfold alistLookup alistInsert
    rw [List.find?_cons_of_neg _ (by simp; exact fun hkk => h hkk.symm)]
  rw [h1, alistLookup_erase_other k k' m h]

/-! ## ResolutionManager (`nz7dev_rdp_simple.py`, class ResolutionManager)

Presets live in the in-memory dict `self.presets`; `save_presets` only
writes the JSON file (its failures are swallowed inside it), so the dict
state is the observable state modelled here. -/

/-- Embeds the dataclass `ResolutionPreset(name, width, height, description)`. -/
structure ResolutionPreset where
  name : String
  width : Int
  height : Int
  description : String
  deriving Repr, DecidableEq

/-- In-memory preset dictionary `self.presets`. -/
abbrev Presets := List (String × ResolutionPreset)

/-- Key normalization from `add_preset`:
`name.lower().replace(' ', '_').replace('-', '_')`. -/
def normalizeKey (name : String) : String :=
  ((name.toLower).replace " " "_").replace "-" "_"

/-- `ResolutionManager.add_preset`: stores the preset under the normalized
key and returns `True` (the `save_presets` call swallows its own errors). -/
def ResolutionManager.add_preset (presets : Presets) (name : String) (width height : Int)
    (description : String) : Presets × Bool :=
  (alistInsert (normalizeKey name) (ResolutionPreset.mk name width height description) presets,
   true)

/-- `ResolutionManager.get_preset`: `self.presets.get(key)`. -/
def ResolutionManager.get_preset (presets : Presets) (key : String) : Option ResolutionPreset :=
  alistLookup presets key

/-- `ResolutionManager.delete_preset`: deletes the key when present and
returns `True`, otherwise returns `False` leaving the dict unchanged. -/
def ResolutionManager.delete_preset (presets : Presets) (key : String) : Presets × Bool :=
  if (alistLookup presets key).isSome then (alistErase key presets, true)
  else (presets, false)

/-- `ResolutionManager.get_presets`: returns a copy of the dict. -/
def ResolutionManager.get_presets (presets : Presets) : Presets :=
  presets

/-- C9: adding a preset and fetching it under its normalized key returns the
same name/width/height/description, and deleting that key removes it from
every subsequent `get_presets` listing. -/
theorem c9_preset_roundtrip (presets : Presets) (name : String) (width height : Int)
    (description : String) :
    ResolutionManager.get_preset (ResolutionManager.add_preset presets name width height description).1
        (normalizeKey name)
      = some (ResolutionPreset.mk name width height description)
    ∧ (ResolutionManager.add_preset presets name width height description).2 = true
    ∧ alistLookup
        (ResolutionManager.get_presets
          (ResolutionManager.delete_preset
            (ResolutionManager.add_preset presets name width height description).1
            (normalizeKey name)).1)
        (normalizeKey name) = none := by
  refine ⟨?_, rfl, ?_⟩
  · exact alistLookup_insert_self _ _ _
  · have hsome :
        (alistLookup
          (ResolutionManager.add_preset presets name width height description).1
          (normalizeKey name)).isSome = true := by
      simp [ResolutionManager.add_preset, alistLookup_insert_self]
    simp only [ResolutionManager.get_presets, ResolutionManager.delete_preset,
      ResolutionManager.add_preset] at *
    simp [hsome, alistLookup_erase_self]

/-! ## MachineScanner probes (`nz7dev_rdp_simple.py`, class MachineScanner)

The outcome of each external effect (the `ping` subprocess, the TCP
`connect_ex`) is an explicit parameter; the embedded function is the
Python except-handler logic mapping that outcome to a boolean. -/

/-- Outcome of `subprocess.run(['ping', ...])`: the process exited with a
code, or `subprocess.TimeoutExpired` / `subprocess.CalledProcessError`
was raised (the two exception classes the source catches). -/
inductive PingOutcome where
  | exited (code : Int)
  | timedOut
  | calledProcessError
  deriving Repr, DecidableEq

/-- Outcome of the TCP port check: `sock.connect_ex` returned an error
number (0 for success, nonzero for failures such as refusal), or some
exception was raised (timeout included); the bare `except:` in the source
catches every exception. -/
inductive ConnectOutcome where
  | connectResult (errno : Int)
  | sockError
  deriving Repr, DecidableEq

/-- `MachineScanner.ping_host`: `returncode == 0` on a completed run,
`False` when `TimeoutExpired` or `CalledProcessError` is caught. -/
def MachineScanner.ping_host (ip : String) (outcome : PingOutcome) : Bool :=
  match outcome with
  | .exited code => code == 0
  | .timedOut => false
  | .calledProcessError => false

/-- `MachineScanner.check_port`: true exactly when `connect_ex` returned 0;
every exception path returns `False`. -/
def MachineScanner.check_port (ip : String) (port : Int) (outcome : ConnectOutcome) : Bool :=
  match outcome with
  | .connectResult errno => errno == 0
  | .sockError => false

/-- `MachineScanner.check_rdp_port`: port 3389. -/
def MachineScanner.check_rdp_port (ip : String) (outcome : ConnectOutcome) : Bool :=
  MachineScanner.check_port ip 3389 outcome

/-- `MachineScanner.check_vnc_port`: port 5900. -/
def MachineScanner.check_vnc_port (ip : String) (outcome : ConnectOutcome) : Bool :=
  MachineScanner.check_port ip 5900 outcome

/-- `MachineScanner.check_ssh_port`: port 22. -/
def MachineScanner.check_ssh_port (ip : String) (outcome : ConnectOutcome) : Bool :=
  MachineScanner.check_port ip 22 outcome

/-- `MachineScanner.detect_os_type`: OS label from the service flags. -/
def MachineScanner.detect_os_type (rdp_enabled vnc_enabled ssh_enabled : Bool) : String :=
  if rdp_enabled && ssh_enabled then "Windows/WSL"
  else if rdp_enabled then "Windows"
  else if vnc_enabled && ssh_enabled then "Ubuntu Desktop"
  else if ssh_enabled then "Linux Server"
  else if vnc_enabled then "Linux/VNC"
  else "Unknown"

/-- Embeds the `Machine` dataclass fields used by the scanner
(`last_seen`, connection bookkeeping fields omitted: they stay at their
dataclass defaults within `scan_single_host`). -/
structure Machine where
  ip : String
  hostname : String
  os_version : String
  online : Bool
  rdp_enabled : Bool
  vnc_enabled : Bool
  ssh_enabled : Bool
  deriving Repr, DecidableEq

/-- Environment observed when scanning one host: the three port-check
outcomes, the ping outcome, and the hostname lookup result (either the
reverse-DNS name or the `Unknown-` fallback the source computes). -/
structure HostEnv where
  rdpOutcome : ConnectOutcome
  vncOutcome : ConnectOutcome
  sshOutcome : ConnectOutcome
  pingOutcome : PingOutcome
  hostname : String
  deriving Repr

/-- `MachineScanner.scan_single_host`: probes the three service ports,
returns `None` when none is open, otherwise builds a `Machine` marked
online (a host with an open service is forced online even if ping
failed). -/
def MachineScanner.scan_single_host (ip : String) (env : HostEnv) : Option Machine :=
  let rdp_enabled := MachineScanner.check_rdp_port ip env.rdpOutcome
  let vnc_enabled := MachineScanner.check_vnc_port ip env.vncOutcome
  let ssh_enabled := MachineScanner.check_ssh_port ip env.sshOutcome
  if !rdp_enabled && !vnc_enabled && !ssh_enabled then none
  else
    let online0 := MachineScanner.ping_host ip env.pingOutcome
    let online := if !online0 && (rdp_enabled || vnc_enabled || ssh_enabled) then true else online0
    some (Machine.mk ip env.hostname
      (MachineScanner.detect_os_type rdp_enabled vnc_enabled ssh_enabled)
      online rdp_enabled vnc_enabled ssh_enabled)

/-- One step of the result collection in `MachineScanner.scan_network`:
a scanned machine is added to `discovered_machines` keyed by its ip only
when it exists and has at least one service enabled. -/
def MachineScanner.scanStep (network_base : String) (env : Nat → HostEnv)
    (acc : List (String × Machine)) (i : Nat) : List (String × Machine) :=
  let ip := network_base ++ "." ++ toString i
  match MachineScanner.scan_single_host ip (env i) with
  | some m =>
    if m.rdp_enabled || m.vnc_enabled || m.ssh_enabled then alistInsert m.ip m acc else acc
  | none => acc

/-- `MachineScanner.scan_network`: scans `network_base.start_ip` through
`network_base.end_ip` and returns the mapping of discovered machines.
The thread pool only parallelizes the per-host scans; the resulting
dictionary content is modelled by folding the collection step over the
range. -/
def MachineScanner.scan_network (network_base : String) (start_ip end_ip : Nat)
    (env : Nat → HostEnv) : List (String × Machine) :=
  (List.range' start_ip (end_ip + 1 - start_ip)).foldl
    (MachineScanner.scanStep network_base env) []

/-! ## NetworkOptimizer (`nz7dev_gui.py`, class NetworkOptimizer)

Timestamps are seconds as naturals; `now - cached_time < 10s` is the
truncated subtraction comparison, which agrees with the source for a
monotone clock. The third component of the result records whether the
underlying `ping` subprocess was actually run by this call. -/

/-- Shared exit-code logic of the ping subprocess: alive exactly when the
run completed with return code 0. -/
def pingRunResult (outcome : PingOutcome) : Bool :=
  match outcome with
  | .exited code => code == 0
  | .timedOut => false
  | .calledProcessError => false

/-- Ping cache `self._ping_cache`: ip to (timestamp, cached result). -/
abbrev PingCache := List (String × (Nat × Bool))

/-- Value of `self._cache_duration` in seconds. -/
def NetworkOptimizer.cache_duration : Nat := 10

/-- The probe branch of `ping_target`: run the ping, store the result in
the cache with the current timestamp, return it (exceptions store and
return `False`). -/
def NetworkOptimizer.ping_probe (cache : PingCache) (ip : String) (now : Nat)
    (outcome : PingOutcome) : Bool × PingCache × Bool :=
  (pingRunResult outcome, alistInsert ip (now, pingRunResult outcome) cache, true)

/-- `NetworkOptimizer.ping_target`: returns the cached boolean when the
entry is younger than the TTL, otherwise probes and refreshes the cache.
Result components: value, new cache state, whether a probe was run. -/
def NetworkOptimizer.ping_target (cache : PingCache) (ip : String) (now : Nat)
    (outcome : PingOutcome) : Bool × PingCache × Bool :=
  match alistLookup cache ip with
  | some (cached_time, cached_result) =>
    if now - cached_time < NetworkOptimizer.cache_duration then (cached_result, cache, false)
    else NetworkOptimizer.ping_probe cache ip now outcome
  | none => NetworkOptimizer.ping_probe cache ip now outcome

/-- Helper: a scanned machine record carries the ip it was scanned at. -/
theorem scan_single_host_ip (ip : String) (e : HostEnv) (m : Machine)
    (h : MachineScanner.scan_single_host ip e = some m) : m.ip = ip := by
  simp only [MachineScanner.scan_single_host] at h
  split at h
  · exact Option.noConfusion h
  · cases h
    rfl

/-- Helper: with all three service ports closed, the scan yields nothing. -/
theorem scan_single_host_none (ip : String) (e : HostEnv)
    (h1 : MachineScanner.check_rdp_port ip e.rdpOutcome = false)
    (h2 : MachineScanner.check_vnc_port ip e.vncOutcome = false)
    (h3 : MachineScanner.check_ssh_port ip e.sshOutcome = false) :
    MachineScanner.scan_single_host ip e = none := by
  simp [MachineScanner.scan_single_host, h1, h2, h3]

/-- Helper: the scan-network fold never introduces a binding for an
address at which every in-range scan comes back empty. -/
theorem scan_fold_absent (network_base : String) (env : Nat → HostEnv) (ip : String)
    (l : List Nat)
    (hl : ∀ j ∈ l, network_base ++ "." ++ toString j = ip →
      MachineScanner.scan_single_host ip (env j) = none)
    (acc : List (String × Machine)) (hacc : alistLookup acc ip = none) :
    alistLookup (l.foldl (MachineScanner.scanStep network_base env) acc) ip = none := by
  induction l generalizing acc with
  | nil => exact hacc
  | cons i t ih =>
    refine ih (fun j hj => hl j (List.mem_cons_of_mem _ hj)) _ ?_
    unfold MachineScanner.scanStep
    dsimp only
    cases hscan : MachineScanner.scan_single_host (network_base ++ "." ++ toString i) (env i) with
    | none => exact hacc
    | some m =>
      dsimp only
      by_cases hm : (m.rdp_enabled || m.vnc_enabled || m.ssh_enabled) = true
      · rw [if_pos hm]
        have hmip : m.ip = network_base ++ "." ++ toString i := scan_single_host_ip _ _ _ hscan
        by_cases hk : m.ip = ip
        · exfalso
          have hiip : network_base ++ "." ++ toString i = ip := by rw [← hmip, hk]
          have : MachineScanner.scan_single_host ip (env i) = none :=
            hl i (List.mem_cons_self _ _) hiip
          rw [hiip] at hscan
          rw [this] at hscan
          exact Option.noConfusion hscan
        · rw [alistLookup_insert_other m.ip ip m acc (fun he => hk he.symm)]
          exact hacc
      · rw [if_neg hm]
        exact hacc

/-- C7: an address whose RDP (3389), VNC (5900) and SSH (22) checks all
return false yields no machine record from `scan_single_host` and is
absent from the mapping returned by `scan_network`. -/
theorem c7_no_service_excluded (network_base : String) (start_ip end_ip : Nat)
    (env : Nat → HostEnv) (ip : String)
    (h : ∀ j, start_ip ≤ j → j ≤ end_ip → network_base ++ "." ++ toString j = ip →
      MachineScanner.check_rdp_port ip (env j).rdpOutcome = false
      ∧ MachineScanner.check_vnc_port ip (env j).vncOutcome = false
      ∧ MachineScanner.check_ssh_port ip (env j).sshOutcome = false) :
    (∀ j, start_ip ≤ j → j ≤ end_ip → network_base ++ "." ++ toString j = ip →
      MachineScanner.scan_single_host ip (env j) = none)
    ∧ alistLookup (MachineScanner.scan_network network_base start_ip end_ip env) ip = none := by
  have hnone : ∀ j, start_ip ≤ j → j ≤ end_ip → network_base ++ "." ++ toString j = ip →
      MachineScanner.scan_single_host ip (env j) = none := by
    intro j hj1 hj2 hj3
    obtain ⟨h1, h2, h3⟩ := h j hj1 hj2 hj3
    exact scan_single_host_none ip (env j) h1 h2 h3
  refine ⟨hnone, ?_⟩
  unfold MachineScanner.scan_network
  refine scan_fold_absent network_base env ip _ ?_ [] rfl
  intro j hj
  have hbounds := List.mem_range'_1.mp hj
  exact hnone j hbounds.1 (by omega)

/-- C7 witness: a concrete one-address range with every port closed. -/
theorem c7_no_service_excluded_witness :
    (∀ j, 1 ≤ j → j ≤ 1 → "192.168.1" ++ "." ++ toString j = "192.168.1.1" →
      MachineScanner.check_rdp_port "192.168.1.1"
          (HostEnv.mk ConnectOutcome.sockError ConnectOutcome.sockError
            ConnectOutcome.sockError PingOutcome.timedOut "host").rdpOutcome = false
      ∧ MachineScanner.check_vnc_port "192.168.1.1"
          (HostEnv.mk ConnectOutcome.sockError ConnectOutcome.sockError
            ConnectOutcome.sockError PingOutcome.timedOut "host").vncOutcome = false
      ∧ MachineScanner.check_ssh_port "192.168.1.1"
          (HostEnv.mk ConnectOutcome.sockError ConnectOutcome.sockError
            ConnectOutcome.sockError PingOutcome.timedOut "host").sshOutcome = false)
    ∧ alistLookup
        (MachineScanner.scan_network "192.168.1" 1 1
          (fun _ => HostEnv.mk ConnectOutcome.sockError ConnectOutcome.sockError
            ConnectOutcome.sockError PingOutcome.timedOut "host"))
        "192.168.1.1" = none := by
  refine ⟨fun j _ _ _ => ⟨rfl, rfl, rfl⟩, ?_⟩
  exact (c7_no_service_excluded "192.168.1" 1 1
    (fun _ => HostEnv.mk ConnectOutcome.sockError ConnectOutcome.sockError
      ConnectOutcome.sockError PingOutcome.timedOut "host") "192.168.1.1"
    (fun j _ _ _ => ⟨rfl, rfl, rfl⟩)).2

/-- C6: the host and port probes map every recorded outcome to a boolean:
a completed ping run yields `returncode == 0`, ping timeout and
called-process errors yield false, a nonzero `connect_ex` result
(refusal) yields false, any socket exception (timeout included) yields
false, and the gui ping probe behaves the same. -/
theorem c6_probes_total (ip : String) (port : Int) :
    (∀ code, MachineScanner.ping_host ip (PingOutcome.exited code) = (code == 0))
    ∧ MachineScanner.ping_host ip PingOutcome.timedOut = false
    ∧ MachineScanner.ping_host ip PingOutcome.calledProcessError = false
    ∧ (∀ errno, errno ≠ 0 →
        MachineScanner.check_port ip port (ConnectOutcome.connectResult errno) = false)
    ∧ MachineScanner.check_port ip port ConnectOutcome.sockError = false
    ∧ (∀ cache now, (NetworkOptimizer.ping_probe cache ip now PingOutcome.timedOut).1 = false)
    ∧ (∀ cache now,
        (NetworkOptimizer.ping_probe cache ip now PingOutcome.calledProcessError).1 = false)
    ∧ (∀ cache now code,
        (NetworkOptimizer.ping_probe cache ip now (PingOutcome.exited code)).1 = (code == 0)) := by
  refine ⟨fun code => rfl, rfl, rfl, ?_, rfl, fun _ _ => rfl, fun _ _ => rfl, fun _ _ _ => rfl⟩
  intro errno herr
  simp [MachineScanner.check_port, herr]

/-- C6 witness: refusal (errno 111) on the RDP port of a concrete host. -/
theorem c6_probes_total_witness :
    (111 : Int) ≠ 0
    ∧ MachineScanner.check_port "192.168.1.40" 3389 (ConnectOutcome.connectResult 111) = false := by
  exact ⟨by decide, (c6_probes_total "192.168.1.40" 3389).2.2.2.1 111 (by decide)⟩

/-- C5: a call finding no fresh cache entry probes and stores the result
with the current timestamp; a second call within the 10-second TTL
returns the identical cached boolean without probing and leaves the
cache unchanged; a second call at or past the TTL runs exactly one fresh
probe and stores its result with the new timestamp. -/
theorem c5_ping_cache_ttl (cache : PingCache) (ip : String) (t0 t1 : Nat)
    (o0 o1 : PingOutcome)
    (hstale : ∀ p : Nat × Bool, alistLookup cache ip = some p →
      NetworkOptimizer.cache_duration ≤ t0 - p.1) :
    NetworkOptimizer.ping_target cache ip t0 o0
      = (pingRunResult o0, alistInsert ip (t0, pingRunResult o0) cache, true)
    ∧ (t1 - t0 < NetworkOptimizer.cache_duration →
        NetworkOptimizer.ping_target (alistInsert ip (t0, pingRunResult o0) cache) ip t1 o1
          = (pingRunResult o0, alistInsert ip (t0, pingRunResult o0) cache, false))
    ∧ (NetworkOptimizer.cache_duration ≤ t1 - t0 →
        NetworkOptimizer.ping_target (alistInsert ip (t0, pingRunResult o0) cache) ip t1 o1
          = (pingRunResult o1,
             alistInsert ip (t1, pingRunResult o1) (alistInsert ip (t0, pingRunResult o0) cache),
             true)) := by
  refine ⟨?_, ?_, ?_⟩
  · unfold NetworkOptimizer.ping_target
    cases hc : alistLookup cache ip with
    | none => rfl
    | some p =>
      obtain ⟨ct, cr⟩ := p
      have h10 : NetworkOptimizer.cache_duration ≤ t0 - ct := hstale (ct, cr) hc
      dsimp only
      rw [if_neg (Nat.not_lt.mpr h10)]
      rfl
  · intro hlt
    unfold NetworkOptimizer.ping_target
    rw [alistLookup_insert_self]
    dsimp only
    rw [if_pos hlt]
  · intro hge
    unfold NetworkOptimizer.ping_target
    rw [alistLookup_insert_self]
    dsimp only
    rw [if_neg (Nat.not_lt.mpr hge)]
    rfl

/-- C5 witness: a first probe at time 0 on an empty cache, followed by a
cache hit at time 5 that returns the stored boolean without probing. -/
theorem c5_ping_cache_ttl_witness :
    (∀ p : Nat × Bool, alistLookup ([] : PingCache) "192.168.1.21" = some p →
      NetworkOptimizer.cache_duration ≤ 0 - p.1)
    ∧ NetworkOptimizer.ping_target
        (alistInsert "192.168.1.21" (0, pingRunResult (PingOutcome.exited 0)) [])
        "192.168.1.21" 5 PingOutcome.timedOut
      = (pingRunResult (PingOutcome.exited 0),
         alistInsert "192.168.1.21" (0, pingRunResult (PingOutcome.exited 0)) [], false) := by
  have hmiss : ∀ p : Nat × Bool, alistLookup ([] : PingCache) "192.168.1.21" = some p →
      NetworkOptimizer.cache_duration ≤ 0 - p.1 := by
    intro p hp
    simp [alistLookup] at hp
  exact ⟨hmiss,
    (c5_ping_cache_ttl [] "192.168.1.21" 0 5 (PingOutcome.exited 0) PingOutcome.timedOut
      hmiss).2.1 (by decide)⟩

/-! ## HyprlandManager (`nz7dev_gui.py`, class HyprlandManager)

Monitors and clients are the parsed JSON records the manager reads from
`hyprctl`; only the fields the source accesses are modelled. Fractional
scaling `int(v * f)` (float product truncated toward zero) is embedded
as exact integer arithmetic `Int.div (v * percent) 100`, which agrees
with the IEEE double computation on the monitor-sized values involved.
Python floor division `//` is `Int.fdiv`. -/

/-- Fields of one `hyprctl monitors -j` record read by the source:
`width`, `height`, `activeWorkspace.id` (0 when absent),
`specialWorkspace` id (`none` for a missing or empty dict), `focused`. -/
structure Monitor where
  width : Int
  height : Int
  activeWorkspace : Int
  specialWorkspace : Option Int
  focused : Bool
  deriving Repr, DecidableEq

/-- Per-monitor test of the workspace-search loop inside
`get_workspace_resolution`: the workspace is the monitor's active
workspace, or its special (scratchpad) workspace. -/
def monitorHasWorkspace (workspace : Int) (m : Monitor) : Bool :=
  workspace == m.activeWorkspace
    || (match m.specialWorkspace with
        | some i => i == workspace
        | none => false)

/-- Monitor selection of `get_workspace_resolution`: first monitor
showing the workspace, else the focused monitor, else the first monitor,
else nothing. -/
def HyprlandManager.find_target_monitor (workspace : Int) (monitors : List Monitor) :
    Option Monitor :=
  match monitors.find? (monitorHasWorkspace workspace) with
  | some m => some m
  | none =>
    match monitors.find? (fun m => m.focused) with
    | some m => some m
    | none => monitors.head?

/-- `HyprlandManager.get_workspace_resolution`: the owning monitor's
width paired with its height minus the 40px waybar, floored at 600;
`(1920, 1040)` when no monitor is found. -/
def HyprlandManager.get_workspace_resolution (workspace : Int) (monitors : List Monitor) :
    Int × Int :=
  match HyprlandManager.find_target_monitor workspace monitors with
  | none => (1920, 1040)
  | some m => (m.width, max (m.height - 40) 600)

/-- Embedding of `int(v * (percent/100))`: the float product truncated
toward zero, computed exactly. -/
def intScale (v : Int) (percent : Int) : Int :=
  Int.tdiv (v * percent) 100

/-- `HyprlandManager.get_optimal_geometry_for_workspace`: geometry string
for a workspace, narrowed for side positions and shrunk for center. -/
def HyprlandManager.get_optimal_geometry_for_workspace (workspace : Int) (position : String)
    (monitors : List Monitor) : String :=
  let wh := HyprlandManager.get_workspace_resolution workspace monitors
  if position == "left" || position == "right" then
    toString (intScale wh.1 48) ++ "x" ++ toString wh.2
  else if position == "center" then
    toString (intScale wh.1 90) ++ "x" ++ toString (intScale wh.2 90)
  else
    toString wh.1 ++ "x" ++ toString wh.2

/-- One `hyprctl clients -j` record: only the title is read. -/
structure Client where
  title : String
  deriving Repr, DecidableEq

/-- `HyprlandManager.check_window_exists`: literal prefix match of the
target title against every client title. -/
def HyprlandManager.check_window_exists (window_title : String) (clients : List Client) : Bool :=
  clients.any (fun client => client.title.startsWith window_title)

/-- Embedding of `width, height = map(int, geometry.split('x'))`: exactly
two integer fields or the `ValueError` path. -/
def parseGeometry (geometry : String) : Option (Int × Int) :=
  match (geometry.splitOn "x").map String.toInt? with
  | [some w, some h] => some (w, h)
  | _ => none

/-- Outcome of one `subprocess.run(['hyprctl', 'dispatch', ...])`. -/
inductive RunOutcome where
  | exited (code : Int)
  | timedOut
  deriving Repr, DecidableEq

/-- Environment observed by `position_window`: the client list returned
by `get_clients` at each retry attempt, the monitor list, and the result
of each dispatched command. -/
structure HyprEnv where
  clientsAt : Nat → List Client
  monitors : List Monitor
  dispatch : String → RunOutcome

/-- The three `hyprctl dispatch` command strings `position_window` builds. -/
def positionCommands (window_title : String) (workspace : Int) (width height x y : Int) :
    List String :=
  ["movetoworkspacesilent " ++ toString workspace ++ ",title:\"" ++ window_title ++ "\"",
   "resizewindowpixel exact " ++ toString width ++ " " ++ toString height
     ++ ",title:\"" ++ window_title ++ "\"",
   "movewindowpixel exact " ++ toString x ++ " " ++ toString y
     ++ ",title:\"" ++ window_title ++ "\""]

/-- `HyprlandManager.position_window`: parses the geometry, waits through
up to 10 retries for a client whose title starts with the target, then
computes the target coordinates and issues the three dispatch commands.
Result: the success boolean and the list of dispatch commands issued
(empty when the function bails out before mutating anything). -/
def HyprlandManager.position_window (env : HyprEnv) (window_title : String) (workspace : Int)
    (position : String) (geometry : String) : Bool × List String :=
  match parseGeometry geometry with
  | none => (false, [])
  | some (width, height) =>
    match (List.range 10).find?
        (fun attempt => HyprlandManager.check_window_exists window_title (env.clientsAt attempt)) with
    | none => (false, [])
    | some _ =>
      let wh := HyprlandManager.get_workspace_resolution workspace env.monitors
      let xy : Int × Int :=
        if position == "center" then
          (max 0 (Int.fdiv (wh.1 - width) 2), max 40 (Int.fdiv (wh.2 - height) 2 + 40))
        else if position == "left" then (50, 90)
        else if position == "right" then (max 50 (wh.1 - width - 50), 90)
        else (100, 100)
      let commands := positionCommands window_title workspace width height xy.1 xy.2
      (commands.all (fun cmd =>
        match env.dispatch cmd with
        | .exited code => code == 0
        | .timedOut => false), commands)

/-- C3: when no client title prefix-matches the target during the ten
retry attempts, `position_window` returns false having issued no
`hyprctl dispatch` command at all. -/
theorem c3_position_window_no_match (env : HyprEnv) (window_title : String) (workspace : Int)
    (position : String) (geometry : String)
    (h : ∀ attempt, attempt < 10 →
      HyprlandManager.check_window_exists window_title (env.clientsAt attempt) = false) :
    HyprlandManager.position_window env window_title workspace position geometry = (false, []) := by
  unfold HyprlandManager.position_window
  cases hp : parseGeometry geometry with
  | none => rfl
  | some wh =>
    obtain ⟨width, height⟩ := wh
    have hfind : (List.range 10).find?
        (fun attempt => HyprlandManager.check_window_exists window_title (env.clientsAt attempt))
        = none := by
      rw [List.find?_eq_none]
      intro attempt hmem
      rw [h attempt (List.mem_range.mp hmem)]
      exact Bool.false_ne_true
    rw [hfind]

/-- C3 witness: an empty desktop never matches, so positioning a concrete
title fails with no commands issued. -/
theorem c3_position_window_no_match_witness :
    (∀ attempt, attempt < 10 →
      HyprlandManager.check_window_exists "FreeRDP: 192.168.1.23"
        ((HyprEnv.mk (fun _ => []) [] (fun _ => RunOutcome.exited 0)).clientsAt attempt) = false)
    ∧ HyprlandManager.position_window
        (HyprEnv.mk (fun _ => []) [] (fun _ => RunOutcome.exited 0))
        "FreeRDP: 192.168.1.23" 1 "center" "1915x1042" = (false, []) := by
  refine ⟨fun _ _ => rfl, ?_⟩
  exact c3_position_window_no_match
    (HyprEnv.mk (fun _ => []) [] (fun _ => RunOutcome.exited 0))
    "FreeRDP: 192.168.1.23" 1 "center" "1915x1042" (fun _ _ => rfl)

/-! ## calculate_geometry_from_preset (`nz7dev_gui.py`, module level) -/

/-- The size-preset table of `calculate_geometry_from_preset`, as
fractions of the workspace resolution (which already has the 40px
waybar margin subtracted); `none` for an unknown preset name. -/
def sizePresetTable (ws_width ws_height : Int) (size_preset : String) : Option (Int × Int) :=
  if size_preset == "full" then some (intScale ws_width 95, intScale ws_height 95)
  else if size_preset == "half-left" then some (intScale ws_width 48, intScale ws_height 95)
  else if size_preset == "half-right" then some (intScale ws_width 48, intScale ws_height 95)
  else if size_preset == "half-top" then some (intScale ws_width 95, intScale ws_height 47)
  else if size_preset == "half-bottom" then some (intScale ws_width 95, intScale ws_height 47)
  else if size_preset == "quarter" then some (intScale ws_width 48, intScale ws_height 47)
  else if size_preset == "third" then some (intScale ws_width 31, intScale ws_height 95)
  else if size_preset == "two-thirds" then some (intScale ws_width 63, intScale ws_height 95)
  else none

/-- `calculate_geometry_from_preset`: resolves the workspace resolution,
honours a parseable custom geometry, and otherwise formats the preset
pair, falling back to `full` for unknown presets or unparseable custom
geometry. `custom_geometry = none` covers both an absent and an empty
(falsy) custom string. -/
def calculate_geometry_from_preset (workspace : Int) (size_preset : String)
    (custom_geometry : Option String) (monitors : List Monitor) : String :=
  let wh := HyprlandManager.get_workspace_resolution workspace monitors
  match (if size_preset == "custom" then custom_geometry else none) with
  | some g =>
    match parseGeometry g with
    | some (width, height) => toString width ++ "x" ++ toString height
    | none =>
      match sizePresetTable wh.1 wh.2 "full" with
      | some (width, height) => toString width ++ "x" ++ toString height
      | none => "1920x1080"
  | none =>
    match sizePresetTable wh.1 wh.2 size_preset with
    | some (width, height) => toString width ++ "x" ++ toString height
    | none =>
      match sizePresetTable wh.1 wh.2 "full" with
      | some (width, height) => toString width ++ "x" ++ toString height
      | none => "1920x1080"

/-- C2 counterexample: on a 1920x1080 monitor the `full` preset resolves
to height 988 = int(0.95 * (1080 - 40)), not a height within one pixel
of 1026; the claim as stated is false at this input. -/
theorem c2_full_preset_height_counterexample :
    HyprlandManager.get_workspace_resolution 1
        [Monitor.mk 1920 1080 1 none true] = (1920, 1040)
    ∧ calculate_geometry_from_preset 1 "full" none
        [Monitor.mk 1920 1080 1 none true] = "1824x988"
    ∧ sizePresetTable 1920 1040 "full" = some (1824, 988)
    ∧ ¬(1026 - 1 ≤ (988 : Int) ∧ (988 : Int) ≤ 1026 + 1) := by
  refine ⟨rfl, ?_, by decide, by decide⟩
  rfl

/-- C2 amended: for a workspace whose owning monitor reports resolution
1920x1080, the `full` preset yields width 1824 = int(0.95 * 1920) and
height 988 = int(0.95 * (1080 - 40)), the 40px being the waybar margin
`get_workspace_resolution` subtracts. -/
theorem c2_full_preset_geometry (workspace : Int) (monitors : List Monitor) (m : Monitor)
    (hfind : HyprlandManager.find_target_monitor workspace monitors = some m)
    (hw : m.width = 1920) (hh : m.height = 1080) :
    calculate_geometry_from_preset workspace "full" none monitors = "1824x988" := by
  have hres : HyprlandManager.get_workspace_resolution workspace monitors = (1920, 1040) := by
    unfold HyprlandManager.get_workspace_resolution
    rw [hfind]
    dsimp only
    rw [hw, hh]
    decide
  unfold calculate_geometry_from_preset
  rw [hres]
  rfl

/-- C2 amended witness: a single focused 1920x1080 monitor showing
workspace 1. -/
theorem c2_full_preset_geometry_witness :
    HyprlandManager.find_target_monitor 1 [Monitor.mk 1920 1080 1 none true]
        = some (Monitor.mk 1920 1080 1 none true)
    ∧ (Monitor.mk 1920 1080 1 none true).width = 1920
    ∧ (Monitor.mk 1920 1080 1 none true).height = 1080
    ∧ calculate_geometry_from_preset 1 "full" none
        [Monitor.mk 1920 1080 1 none true] = "1824x988" := by
  refine ⟨rfl, rfl, rfl, ?_⟩
  exact c2_full_preset_geometry 1 [Monitor.mk 1920 1080 1 none true]
    (Monitor.mk 1920 1080 1 none true) rfl rfl rfl

/-! ## ConnectionManager (`nz7dev_rdp_simple.py`, class ConnectionManager)

The registry `self.active_connections` is a dict keyed by connection id.
A process handle is its latest `poll()` snapshot: `none` while running,
`some code` once exited. Spawning and signalling are external effects
whose outcomes are explicit parameters. -/

/-- Embeds the `Connection` dataclass (the `process` field is reduced to
its poll snapshot, `started` to a timestamp used in the id). -/
structure Connection where
  connection_id : String
  ip : String
  resolution : String
  connection_type : String
  poll : Option Int
  started : Nat
  deriving Repr, DecidableEq

/-- Registry `self.active_connections` of the simple manager. -/
abbrev ConnRegistry := List (String × Connection)

/-- `ConnectionManager.get_connection_by_ip`: first registered connection
whose ip matches. -/
def ConnectionManager.get_connection_by_ip (reg : ConnRegistry) (ip : String) :
    Option Connection :=
  (reg.find? (fun p => p.2.ip == ip)).map (fun p => p.2)

/-- Outcome of the client-spawn attempt inside `connect_rdp` /
`connect_vnc` / `connect_ssh`: either a process that survived the
startup wait (with the epoch second used in the connection id), or the
failure of every method. -/
inductive SpawnOutcome where
  | started (epoch : Nat)
  | failed (error : String)
  deriving Repr, DecidableEq

/-- `ConnectionManager.connect`: rejects when a connection for the ip is
already registered, rejects unknown connection types, and otherwise
registers a new connection on spawn success. The resolution string is
the one the chosen client uses (preset-derived for rdp, `auto` for vnc,
`terminal` for ssh) and is passed through here. -/
def ConnectionManager.connect (reg : ConnRegistry) (ip : String) (connection_type : String)
    (resolution : String) (spawn : SpawnOutcome) : (Bool × String) × ConnRegistry :=
  match ConnectionManager.get_connection_by_ip reg ip with
  | some _ => ((false, "Already connected to " ++ ip), reg)
  | none =>
    if connection_type == "rdp" || connection_type == "vnc" || connection_type == "ssh" then
      match spawn with
      | .started epoch =>
        let connection_id := connection_type ++ "_" ++ ip ++ "_" ++ toString epoch
        ((true, connection_id),
         alistInsert connection_id
           (Connection.mk connection_id ip resolution connection_type none epoch) reg)
      | .failed error => ((false, error), reg)
    else ((false, "Invalid connection type"), reg)

/-- Outcome of the terminate/kill sequence in
`ConnectionManager.disconnect`: graceful exit within the 5s wait, exit
only after the escalated `kill`, the escalated kill also timing out or
hitting a vanished process, or the process already being gone at
`terminate` time. Every branch falls through to the registry removal. -/
inductive TermOutcome where
  | exitedGracefully
  | killedAfterTimeout
  | killEscalationFailed
  | alreadyDead
  deriving Repr, DecidableEq

/-- `ConnectionManager.disconnect`: `NotFound`-style failure when no
connection for the ip is registered; otherwise the process is signalled
(the outcome does not matter) and the handle is deleted from the
registry. -/
def ConnectionManager.disconnect (reg : ConnRegistry) (ip : String) (t : TermOutcome) :
    (Bool × String) × ConnRegistry :=
  match ConnectionManager.get_connection_by_ip reg ip with
  | none => ((false, "No connection found for " ++ ip), reg)
  | some connection =>
    let reg' :=
      match t with
      | .exitedGracefully => alistErase connection.connection_id reg
      | .killedAfterTimeout => alistErase connection.connection_id reg
      | .killEscalationFailed => alistErase connection.connection_id reg
      | .alreadyDead => alistErase connection.connection_id reg
    ((true, "Disconnected from " ++ ip), reg')

/-- `ConnectionManager.get_active_connections`: a plain copy of the dict,
with no purge of dead handles. -/
def ConnectionManager.get_active_connections (reg : ConnRegistry) : ConnRegistry :=
  reg

/-! ## RDPManager (`nz7dev_gui.py`, class RDPManager) -/

/-- Embeds the `ConnectionInfo` dataclass of the gui manager (process
reduced to its poll snapshot). -/
structure ConnectionInfo where
  connection_id : String
  ip : String
  username : String
  geometry : String
  workspace : Int
  position : String
  poll : Option Int
  started : Nat
  deriving Repr, DecidableEq

/-- Registry `self.active_connections` of the gui manager. -/
abbrev RDPRegistry := List (String × ConnectionInfo)

/-- Request parameters of `spawn_connection` after the defaulting reads
(`params.get(...)`); the route guarantees the ip field is present. -/
structure SpawnParams where
  ip : String
  username : String
  password : String
  geometry : String
  workspace : Int
  position : String
  deriving Repr, DecidableEq

/-- Outcome of `subprocess.Popen` for the xfreerdp command: started with
the epoch second used in the connection id, or an `OSError`. -/
inductive PopenOutcome where
  | started (epoch : Nat)
  | osError (error : String)
  deriving Repr, DecidableEq

/-- The geometry-resolution prelude of `spawn_connection`: a geometry
starting with `auto-ws<digits>` targets that workspace, any other
`auto...` string the requested workspace; anything else is literal. -/
def RDPManager.resolveGeometry (p : SpawnParams) (monitors : List Monitor) : String :=
  if p.geometry.startsWith "auto" then
    if p.geometry.startsWith "auto-ws" then
      let ws_match := p.geometry.replace "auto-ws" ""
      if ws_match.length > 0 && ws_match.all Char.isDigit then
        HyprlandManager.get_optimal_geometry_for_workspace
          (Int.ofNat (ws_match.toNat?.getD 0)) p.position monitors
      else
        HyprlandManager.get_optimal_geometry_for_workspace p.workspace p.position monitors
    else
      HyprlandManager.get_optimal_geometry_for_workspace p.workspace p.position monitors
  else p.geometry

/-- `RDPManager.spawn_connection`: builds the xfreerdp command, spawns
it, and registers the connection keyed by `rdp_<ip>_<epoch>`. There is
no check for an existing connection to the same ip. Result: (success,
connection id or error message) and the new registry. -/
def RDPManager.spawn_connection (reg : RDPRegistry) (p : SpawnParams)
    (monitors : List Monitor) (outcome : PopenOutcome) : (Bool × String) × RDPRegistry :=
  let geometry := RDPManager.resolveGeometry p monitors
  match outcome with
  | .osError error => ((false, "Failed to start RDP client: " ++ error), reg)
  | .started epoch =>
    let connection_id := "rdp_" ++ p.ip ++ "_" ++ toString epoch
    ((true, connection_id),
     alistInsert connection_id
       (ConnectionInfo.mk connection_id p.ip p.username geometry p.workspace p.position
         none epoch) reg)

/-- `RDPManager._cleanup_dead_connections`: drop every entry whose
process has exited. -/
def RDPManager.cleanup_dead_connections (reg : RDPRegistry) : RDPRegistry :=
  reg.filter (fun p => p.2.poll.isNone)

/-- Summary record built by `RDPManager.get_active_connections` for one
connection (`started`/`duration` timestamps omitted). -/
structure ConnSummary where
  ip : String
  username : String
  geometry : String
  workspace : Int
  position : String
  status : String
  deriving Repr, DecidableEq

/-- `RDPManager.get_active_connections`: purges dead connections first,
then summarizes the remainder; returns the purged registry (the new
`self.active_connections`) and the summary mapping. -/
def RDPManager.get_active_connections (reg : RDPRegistry) :
    RDPRegistry × List (String × ConnSummary) :=
  let reg' := RDPManager.cleanup_dead_connections reg
  (reg',
   reg'.map (fun p =>
     (p.1, ConnSummary.mk p.2.ip p.2.username p.2.geometry p.2.workspace p.2.position
       (if p.2.poll.isNone then "running" else "stopped"))))

/-- Outcome of the SIGTERM/SIGKILL sequence in
`RDPManager.kill_connection`; every branch falls through to removal. -/
inductive KillOutcome where
  | terminatedGracefully
  | forceKilled
  | forceKillFailed
  deriving Repr, DecidableEq

/-- `RDPManager.kill_connection`: not-found failure when the id is not
registered; otherwise the process group is signalled (graceful, then
forced — the outcome does not matter) and the entry removed. -/
def RDPManager.kill_connection (reg : RDPRegistry) (connection_id : String) (k : KillOutcome) :
    (Bool × String) × RDPRegistry :=
  match alistLookup reg connection_id with
  | none => ((false, "Connection not found"), reg)
  | some _ =>
    let reg' :=
      match k with
      | .terminatedGracefully => alistErase connection_id reg
      | .forceKilled => alistErase connection_id reg
      | .forceKillFailed => alistErase connection_id reg
    ((true, "Connection terminated successfully"), reg')

/-- C1 counterexample: with a live handle for 192.168.1.20 registered,
`spawn_connection` for the same ip does not return an already-connected
failure: it succeeds and registers a second handle for that ip, the
first one untouched. -/
theorem c1_spawn_connection_layers_counterexample :
    (RDPManager.spawn_connection
        [("rdp_192.168.1.20_5",
          ConnectionInfo.mk "rdp_192.168.1.20_5" "192.168.1.20" "User" "1920x1080" 1 "center"
            none 5)]
        (SpawnParams.mk "192.168.1.20" "User" "lemonlime" "1920x1080" 1 "center")
        [] (PopenOutcome.started 9)).1.1 = true
    ∧ ((RDPManager.spawn_connection
        [("rdp_192.168.1.20_5",
          ConnectionInfo.mk "rdp_192.168.1.20_5" "192.168.1.20" "User" "1920x1080" 1 "center"
            none 5)]
        (SpawnParams.mk "192.168.1.20" "User" "lemonlime" "1920x1080" 1 "center")
        [] (PopenOutcome.started 9)).2.filter (fun q => q.2.ip == "192.168.1.20")).length = 2
    ∧ alistLookup (RDPManager.spawn_connection
        [("rdp_192.168.1.20_5",
          ConnectionInfo.mk "rdp_192.168.1.20_5" "192.168.1.20" "User" "1920x1080" 1 "center"
            none 5)]
        (SpawnParams.mk "192.168.1.20" "User" "lemonlime" "1920x1080" 1 "center")
        [] (PopenOutcome.started 9)).2 "rdp_192.168.1.20_5"
      = some (ConnectionInfo.mk "rdp_192.168.1.20_5" "192.168.1.20" "User" "1920x1080" 1 "center"
          none 5) := by
  exact ⟨rfl, rfl, rfl⟩

/-- C1 amended: `ConnectionManager.connect` rejects a connect request for
an ip with a registered handle with an already-connected failure and an
unchanged registry; `RDPManager.spawn_connection` performs no such
check: a successful spawn always succeeds and registers a new handle,
leaving every previously registered handle in place. -/
theorem c1_per_ip_handle_amended :
    (∀ (reg : ConnRegistry) (ip connection_type resolution : String) (spawn : SpawnOutcome)
        (c : Connection), ConnectionManager.get_connection_by_ip reg ip = some c →
      ConnectionManager.connect reg ip connection_type resolution spawn
        = ((false, "Already connected to " ++ ip), reg))
    ∧ (∀ (reg : RDPRegistry) (p : SpawnParams) (monitors : List Monitor) (epoch : Nat),
        (RDPManager.spawn_connection reg p monitors (PopenOutcome.started epoch)).1.1 = true
        ∧ (∀ (k : String) (c : ConnectionInfo), alistLookup reg k = some c →
            k ≠ "rdp_" ++ p.ip ++ "_" ++ toString epoch →
            alistLookup (RDPManager.spawn_connection reg p monitors
              (PopenOutcome.started epoch)).2 k = some c)) := by
  constructor
  · intro reg ip connection_type resolution spawn c h
    unfold ConnectionManager.connect
    rw [h]
  · intro reg p monitors epoch
    refine ⟨rfl, ?_⟩
    intro k c hk hne
    have hreg : (RDPManager.spawn_connection reg p monitors (PopenOutcome.started epoch)).2
        = alistInsert ("rdp_" ++ p.ip ++ "_" ++ toString epoch)
            (ConnectionInfo.mk ("rdp_" ++ p.ip ++ "_" ++ toString epoch) p.ip p.username
              (RDPManager.resolveGeometry p monitors) p.workspace p.position none epoch)
            reg := rfl
    rw [hreg, alistLookup_insert_other _ _ _ _ hne]
    exact hk

/-- C1 amended witness: a concrete duplicate connect against the simple
manager is rejected with the registry unchanged, and a concrete spawn
through the gui manager keeps the pre-existing handle. -/
theorem c1_per_ip_handle_amended_witness :
    ConnectionManager.get_connection_by_ip
        [("rdp_192.168.1.23_4",
          Connection.mk "rdp_192.168.1.23_4" "192.168.1.23" "1920x1080" "rdp" none 4)]
        "192.168.1.23"
      = some (Connection.mk "rdp_192.168.1.23_4" "192.168.1.23" "1920x1080" "rdp" none 4)
    ∧ ConnectionManager.connect
        [("rdp_192.168.1.23_4",
          Connection.mk "rdp_192.168.1.23_4" "192.168.1.23" "1920x1080" "rdp" none 4)]
        "192.168.1.23" "rdp" "1920x1080" (SpawnOutcome.started 7)
      = ((false, "Already connected to " ++ "192.168.1.23"),
         [("rdp_192.168.1.23_4",
           Connection.mk "rdp_192.168.1.23_4" "192.168.1.23" "1920x1080" "rdp" none 4)]) := by
  refine ⟨rfl, ?_⟩
  exact (c1_per_ip_handle_amended.1
    [("rdp_192.168.1.23_4",
      Connection.mk "rdp_192.168.1.23_4" "192.168.1.23" "1920x1080" "rdp" none 4)]
    "192.168.1.23" "rdp" "1920x1080" (SpawnOutcome.started 7)
    (Connection.mk "rdp_192.168.1.23_4" "192.168.1.23" "1920x1080" "rdp" none 4) rfl)

/-- Helper for C4: with all handles for the ip sharing the removed id,
the erased registry holds no handle for that ip. -/
theorem get_connection_by_ip_erase_none (reg : ConnRegistry) (ip : String) (c : Connection)
    (hunique : ∀ q ∈ reg, q.2.ip = ip → q.1 = c.connection_id) :
    ConnectionManager.get_connection_by_ip (alistErase c.connection_id reg) ip = none := by
  unfold ConnectionManager.get_connection_by_ip alistErase
  have h : List.find? (fun p => p.2.ip == ip)
      (List.filter (fun p => !(p.1 == c.connection_id)) reg) = none := by
    rw [List.find?_eq_none]
    intro x hx
    rcases List.mem_filter.mp hx with ⟨hmem, hne⟩
    intro hip
    have hxip : x.2.ip = ip := by simpa using hip
    have hkey := hunique x hmem hxip
    simp [hkey] at hne
  rw [h]
  rfl

/-- C4: a successful disconnect removes the handle from the registry for
every signal outcome (graceful, escalated kill, kill failure, process
already gone); the active-connection listing then holds no handle for
that address, and a second disconnect for it returns the not-found
failure with the registry unchanged. The gui kill-by-id path behaves the
same for every kill outcome. -/
theorem c4_disconnect_removes_handle (reg : ConnRegistry) (ip : String) (t t' : TermOutcome)
    (c : Connection)
    (hfound : ConnectionManager.get_connection_by_ip reg ip = some c)
    (hunique : ∀ q ∈ reg, q.2.ip = ip → q.1 = c.connection_id) :
    ConnectionManager.disconnect reg ip t
      = ((true, "Disconnected from " ++ ip), alistErase c.connection_id reg)
    ∧ ConnectionManager.get_connection_by_ip
        (ConnectionManager.get_active_connections (alistErase c.connection_id reg)) ip = none
    ∧ ConnectionManager.disconnect (alistErase c.connection_id reg) ip t'
      = ((false, "No connection found for " ++ ip), alistErase c.connection_id reg)
    ∧ (∀ (greg : RDPRegistry) (connection_id : String) (k : KillOutcome) (ci : ConnectionInfo),
        alistLookup greg connection_id = some ci →
        RDPManager.kill_connection greg connection_id k
          = ((true, "Connection terminated successfully"), alistErase connection_id greg)
        ∧ RDPManager.kill_connection (alistErase connection_id greg) connection_id k
          = ((false, "Connection not found"), alistErase connection_id greg)) := by
  have hnone := get_connection_by_ip_erase_none reg ip c hunique
  refine ⟨?_, hnone, ?_, ?_⟩
  · unfold ConnectionManager.disconnect
    rw [hfound]
    cases t <;> rfl
  · unfold ConnectionManager.disconnect
    rw [hnone]
  · intro greg connection_id k ci hci
    constructor
    · unfold RDPManager.kill_connection
      rw [hci]
      cases k <;> rfl
    · unfold RDPManager.kill_connection
      rw [alistLookup_erase_self]

/-- C4 witness: one concrete registered connection disconnected
gracefully. -/
theorem c4_disconnect_removes_handle_witness :
    ConnectionManager.get_connection_by_ip
        [("rdp_192.168.1.25_2",
          Connection.mk "rdp_192.168.1.25_2" "192.168.1.25" "1717x1402" "rdp" none 2)]
        "192.168.1.25"
      = some (Connection.mk "rdp_192.168.1.25_2" "192.168.1.25" "1717x1402" "rdp" none 2)
    ∧ (∀ q ∈ [("rdp_192.168.1.25_2",
          Connection.mk "rdp_192.168.1.25_2" "192.168.1.25" "1717x1402" "rdp" none 2)],
        (q : String × Connection).2.ip = "192.168.1.25" → q.1 = "rdp_192.168.1.25_2")
    ∧ ConnectionManager.disconnect
        [("rdp_192.168.1.25_2",
          Connection.mk "rdp_192.168.1.25_2" "192.168.1.25" "1717x1402" "rdp" none 2)]
        "192.168.1.25" TermOutcome.exitedGracefully
      = ((true, "Disconnected from " ++ "192.168.1.25"),
         alistErase "rdp_192.168.1.25_2"
           [("rdp_192.168.1.25_2",
             Connection.mk "rdp_192.168.1.25_2" "192.168.1.25" "1717x1402" "rdp" none 2)]) := by
  have hunique : ∀ q ∈ [("rdp_192.168.1.25_2",
      Connection.mk "rdp_192.168.1.25_2" "192.168.1.25" "1717x1402" "rdp" none 2)],
      (q : String × Connection).2.ip = "192.168.1.25" → q.1 = "rdp_192.168.1.25_2" := by
    intro q hq hip
    rcases List.mem_singleton.mp hq with rfl
    rfl
  refine ⟨rfl, hunique, ?_⟩
  exact (c4_disconnect_removes_handle
    [("rdp_192.168.1.25_2",
      Connection.mk "rdp_192.168.1.25_2" "192.168.1.25" "1717x1402" "rdp" none 2)]
    "192.168.1.25" TermOutcome.exitedGracefully TermOutcome.exitedGracefully
    (Connection.mk "rdp_192.168.1.25_2" "192.168.1.25" "1717x1402" "rdp" none 2)
    rfl hunique).1

/-- C8 counterexample: the simple manager's `get_active_connections` is
a plain copy without a purge — it returns a handle whose process has
already exited. -/
theorem c8_simple_listing_keeps_dead_counterexample :
    ConnectionManager.get_active_connections
        [("rdp_192.168.1.26_3",
          Connection.mk "rdp_192.168.1.26_3" "192.168.1.26" "1920x1080" "rdp" (some 1) 3)]
      = [("rdp_192.168.1.26_3",
          Connection.mk "rdp_192.168.1.26_3" "192.168.1.26" "1920x1080" "rdp" (some 1) 3)]
    ∧ (ConnectionManager.get_active_connections
        [("rdp_192.168.1.26_3",
          Connection.mk "rdp_192.168.1.26_3" "192.168.1.26" "1920x1080" "rdp" (some 1) 3)]).any
        (fun q => q.2.poll.isSome) = true := by
  exact ⟨rfl, rfl⟩

/-- C8 amended: `RDPManager.get_active_connections` purges every handle
whose process has exited before returning, so both the retained registry
and the returned summaries contain only running handles, while
`ConnectionManager.get_active_connections` returns an unpurged copy of
its registry. -/
theorem c8_listing_purges_amended :
    (∀ reg : RDPRegistry,
      ((RDPManager.get_active_connections reg).1.all (fun q => q.2.poll.isNone)) = true
      ∧ ((RDPManager.get_active_connections reg).2.all
          (fun q => q.2.status == "running")) = true)
    ∧ (∀ reg : ConnRegistry, ConnectionManager.get_active_connections reg = reg) := by
  constructor
  · intro reg
    constructor
    · simp only [RDPManager.get_active_connections, RDPManager.cleanup_dead_connections]
      rw [List.all_eq_true]
      intro q hq
      exact (List.mem_filter.mp hq).2
    · simp only [RDPManager.get_active_connections, RDPManager.cleanup_dead_connections]
      rw [List.all_eq_true]
      intro q hq
      rcases List.mem_map.mp hq with ⟨r, hr, rfl⟩
      have hpoll := (List.mem_filter.mp hr).2
      simp [hpoll]
  · intro reg
    rfl

/-! ## VMConfig and ConfigManager (`nz7dev_gui.py`)

The dataclass constructor validates in `__post_init__` and raises on bad
fields; this is embedded as a smart constructor returning `Option`. A
dict of keyword updates becomes a record of optional field overrides. -/

/-- Field bundle of the `VMConfig` dataclass. -/
structure VMConfig where
  callsign : String
  ip : String
  credentials : String
  geometry : String
  workspace : Int
  position : String
  scratchpad : Bool
  enabled : Bool
  deriving Repr, DecidableEq

/-- Python `s.split('.')` on the character list of a string: single-char
separator split keeping empty parts. -/
def pySplit (sep : Char) (cs : List Char) : List (List Char) :=
  match cs with
  | [] => [[]]
  | c :: rest =>
    if c == sep then [] :: pySplit sep rest
    else
      match pySplit sep rest with
      | [] => [[c]]
      | h :: t => (c :: h) :: t

/-- Value of Python `int(part)` for an all-digit part. -/
def digitsToNat (cs : List Char) : Nat :=
  cs.foldl (fun acc c => acc * 10 + (c.toNat - 48)) 0

/-- `VMConfig._is_valid_ip`: four dot-separated all-digit octets each at
most 255 (an empty or non-numeric part fails `isdigit`). -/
def VMConfig.is_valid_ip (ip : String) : Bool :=
  let parts := pySplit '.' ip.data
  parts.length == 4
    && parts.all (fun part =>
        decide (0 < part.length) && part.all Char.isDigit
          && decide (digitsToNat part ≤ 255))

/-- The `__post_init__` checks: valid ip, workspace between 1 and 10,
position one of left/center/right. -/
def VMConfig.is_valid (c : VMConfig) : Bool :=
  VMConfig.is_valid_ip c.ip
    && decide (1 ≤ c.workspace ∧ c.workspace ≤ 10)
    && (["left", "center", "right"].contains c.position)

/-- Constructing a `VMConfig`: `__post_init__` raises (here: `none`) when
any check fails. -/
def VMConfig.create (c : VMConfig) : Option VMConfig :=
  if VMConfig.is_valid c then some c else none

/-- A keyword-update dict for `update_vm_config`: each known field may be
overridden. -/
structure VMUpdates where
  callsign : Option String
  ip : Option String
  credentials : Option String
  geometry : Option String
  workspace : Option Int
  position : Option String
  scratchpad : Option Bool
  enabled : Option Bool
  deriving Repr, DecidableEq

/-- `current.update(updates)`: field-wise override of the current config
dict before reconstruction. -/
def VMConfig.applyUpdates (c : VMConfig) (u : VMUpdates) : VMConfig :=
  VMConfig.mk (u.callsign.getD c.callsign) (u.ip.getD c.ip) (u.credentials.getD c.credentials)
    (u.geometry.getD c.geometry) (u.workspace.getD c.workspace) (u.position.getD c.position)
    (u.scratchpad.getD c.scratchpad) (u.enabled.getD c.enabled)

/-- The hardcoded default fleet of `ConfigManager._load_fleet_config`
(the YAML branch currently returns the same dict). -/
def ConfigManager.default_fleet : List (String × VMConfig) :=
  [("vm20", VMConfig.mk "ALPHA" "192.168.1.20" "nz7dev:lemonlime" "957x1042" 4 "left" false true),
   ("vm21", VMConfig.mk "BRAVO" "192.168.1.21" "nz7dev:lemonlime" "1717x1402" 2 "left" true true),
   ("vm23", VMConfig.mk "CHARLIE" "192.168.1.23" "User:lemonlime" "1915x1042" 1 "center" false true),
   ("vm24", VMConfig.mk "DELTA" "192.168.1.24" "nz7dev:lemonlime" "957x1042" 4 "right" false true),
   ("vm25", VMConfig.mk "ECHO" "192.168.1.25" "User:lemonlime" "1717x1402" 2 "right" true true),
   ("vm26", VMConfig.mk "FOXTROT" "192.168.1.26" "User:lemonlime" "1915x1042" 3 "center" false true)]

/-- `ConfigManager.update_vm_config`: unknown vm yields `False`; a merged
config failing validation raises inside the `try`, is caught, and yields
`False` with the stored entry untouched; on success the entry is
replaced and `save_config` decides the returned boolean. -/
def ConfigManager.update_vm_config (fleet : List (String × VMConfig)) (vm_name : String)
    (u : VMUpdates) (save_ok : Bool) : Bool × List (String × VMConfig) :=
  match alistLookup fleet vm_name with
  | none => (false, fleet)
  | some current =>
    match VMConfig.create (VMConfig.applyUpdates current u) with
    | none => (false, fleet)
    | some c => (save_ok, alistInsert vm_name c fleet)

/-- C10: every default fleet entry passes the constructor checks; an
update whose merged config violates them returns `False` and leaves the
fleet unchanged; and any update keeps every stored entry valid. -/
theorem c10_vmconfig_invariant :
    (ConfigManager.default_fleet.all (fun p => VMConfig.is_valid p.2)) = true
    ∧ (∀ (fleet : List (String × VMConfig)) (vm_name : String) (u : VMUpdates)
        (save_ok : Bool) (current : VMConfig),
        alistLookup fleet vm_name = some current →
        VMConfig.is_valid (VMConfig.applyUpdates current u) = false →
        ConfigManager.update_vm_config fleet vm_name u save_ok = (false, fleet))
    ∧ (∀ (fleet : List (String × VMConfig)) (vm_name : String) (u : VMUpdates)
        (save_ok : Bool),
        (fleet.all (fun p => VMConfig.is_valid p.2)) = true →
        ((ConfigManager.update_vm_config fleet vm_name u save_ok).2.all
          (fun p => VMConfig.is_valid p.2)) = true) := by
  refine ⟨by decide, ?_, ?_⟩
  · intro fleet vm_name u save_ok current hl hinvalid
    unfold ConfigManager.update_vm_config
    rw [hl]
    dsimp only
    have hc : VMConfig.create (VMConfig.applyUpdates current u) = none := by
      unfold VMConfig.create
      rw [hinvalid]
      rfl
    rw [hc]
  · intro fleet vm_name u save_ok hall
    unfold ConfigManager.update_vm_config
    cases hl : alistLookup fleet vm_name with
    | none => exact hall
    | some current =>
      dsimp only
      cases hc : VMConfig.create (VMConfig.applyUpdates current u) with
      | none => exact hall
      | some c =>
        dsimp only
        have hcvalid : VMConfig.is_valid c = true := by
          unfold VMConfig.create at hc
          split at hc
          · cases hc
            assumption
          · exact Option.noConfusion hc
        rw [List.all_eq_true]
        intro q hq
        simp only [alistInsert, alistErase] at hq
        rcases List.mem_cons.mp hq with h1 | h2
        · rw [h1]
          exact hcvalid
        · exact List.all_eq_true.mp hall q (List.mem_filter.mp h2).1

/-- C10 witness: pushing workspace 99 onto vm20 is rejected and leaves
the default fleet unchanged. -/
theorem c10_vmconfig_invariant_witness :
    alistLookup ConfigManager.default_fleet "vm20"
      = some (VMConfig.mk "ALPHA" "192.168.1.20" "nz7dev:lemonlime" "957x1042" 4 "left"
          false true)
    ∧ VMConfig.is_valid
        (VMConfig.applyUpdates
          (VMConfig.mk "ALPHA" "192.168.1.20" "nz7dev:lemonlime" "957x1042" 4 "left" false true)
          (VMUpdates.mk none none none none (some 99) none none none)) = false
    ∧ ConfigManager.update_vm_config ConfigManager.default_fleet "vm20"
        (VMUpdates.mk none none none none (some 99) none none none) true
      = (false, ConfigManager.default_fleet) := by
  refine ⟨rfl, by decide, ?_⟩
  exact c10_vmconfig_invariant.2.1 ConfigManager.default_fleet "vm20"
    (VMUpdates.mk none none none none (some 99) none none none) true
    (VMConfig.mk "ALPHA" "192.168.1.20" "nz7dev:lemonlime" "957x1042" 4 "left" false true)
    rfl (by decide)

end NZ7
